import Mathlib

/-!
Verification of the PUM risk-scoring and forecasting core.

This file shallowly embeds the functions of app/core/risk_models.py,
app/core/volatility.py and app/core/liquidity.py over exact rationals.
Database queries are modelled by explicit inputs (an Option value models a
query that may raise, following the try/except blocks of the source);
externally fitted statistical models (arch GARCH/EGARCH, statsmodels ARIMA,
the adfuller test) are modelled as oracle inputs carrying the values the
library would return; persistence is modelled as an explicit store of
records, where a successful commit appends the new record and every error
path performs a rollback and leaves the store unchanged.

Real-valued quantities that the source obtains from numpy (standard
deviations, square roots of forecast variances) are supplied as rational
inputs; theorems that need them constrain these inputs by the properties the
numeric values always satisfy (for example, a standard deviation is
nonnegative).
-/

namespace PUM

/-- Arithmetic mean of a list, as numpy mean / pandas mean on the values.
Division by zero (empty list) yields 0 in rational arithmetic; every use in
the source is guarded by a nonemptiness check. -/
def meanQ (l : List ℚ) : ℚ := l.sum / (l.length : ℚ)

/-! ## Risk assessment engine (app/core/risk_models.py) -/

/-- Mirrors RiskAssessmentEngine._calculate_technical_risk.  The input is
the pair of query results (recent blockchain events in 30 days, security
events in 7 days); none models the except branch (a query raising), which
returns the neutral default 50. -/
def technicalRisk (counts : Option (ℕ × ℕ)) : ℚ :=
  match counts with
  | none => 50
  | some (recentEvents, securityEvents) =>
    let complexityScore := min ((recentEvents : ℚ) / 100) 1
    let securityScore := min ((securityEvents : ℚ) * (2/10)) 1
    min ((complexityScore * (6/10) + securityScore * (4/10)) * 100) 100

/-- Mirrors RiskAssessmentEngine._calculate_governance_risk.  The input is
the list of status strings of the governance proposals of the trailing 90
days; none models the except branch (default 50).  An empty list returns 75. -/
def governanceRisk (proposals : Option (List String)) (upgradeStatus : String) : ℚ :=
  match proposals with
  | none => 50
  | some ps =>
    if ps.isEmpty then 75
    else
      let successRate : ℚ := ((ps.filter (fun s => s = "passed")).length : ℚ) / (ps.length : ℚ)
      let proposalFrequency : ℚ := (ps.length : ℚ) / 3
      let risk := ((1 - successRate) * (5/10) +
                   min (proposalFrequency / 5) 1 * (3/10) +
                   (if upgradeStatus = "pending" then (2/10) else 0)) * 100
      min risk 100

/-- Mirrors RiskAssessmentEngine._calculate_market_risk.  prices is the
30-day price query result, most recent first; none models the except branch
(default 50); an empty result returns 60.  annVol is the value of
np.std(np.diff(np.log(prices))) * np.sqrt(365), supplied as an oracle input
(it is only used when more than one price exists). -/
def marketRisk (prices : Option (List ℚ)) (annVol : ℚ) : ℚ :=
  match prices with
  | none => 50
  | some ps =>
    if ps.isEmpty then 60
    else
      let volatilityScore := if ps.length > 1 then min (annVol * 100) 1 else (5/10)
      let trendScore : ℚ :=
        if ps.length > 7 then
          if meanQ (ps.take 7) < meanQ (ps.drop (ps.length - 7)) then 1 else 0
        else (5/10)
      min ((volatilityScore * (7/10) + trendScore * (3/10)) * 100) 100

/-- Python truthiness filter of the list comprehension
[data.volume_24h for data in market_data if data.volume_24h]:
keeps a volume only when it is present and nonzero. -/
def truthyVolumes (vols : List (Option ℚ)) : List ℚ :=
  vols.filterMap (fun v =>
    match v with
    | some x => if x = 0 then none else some x
    | none => none)

/-- Mirrors RiskAssessmentEngine._calculate_liquidity_risk.  volumes is the
7-day market-data query result projected to the volume_24h fields; none
models the except branch (default 50); an empty result returns 70.  volStd
is the value of np.std on the kept volumes, supplied as an oracle input
(only used when more than one volume is kept). -/
def liquidityRisk (volumes : Option (List (Option ℚ))) (volStd : ℚ) : ℚ :=
  match volumes with
  | none => 50
  | some raw =>
    if raw.isEmpty then 70
    else
      let vs := truthyVolumes raw
      let volumeRisk := if vs.length > 1 then min (volStd / meanQ vs) 1 else (5/10)
      let avgVolume := if vs.isEmpty then 0 else meanQ vs
      let volumeScore : ℚ := if avgVolume < 1000000 then 1 else 0
      min ((volumeRisk * (6/10) + volumeScore * (4/10)) * 100) 100

/-- Mirrors RiskAssessmentEngine._calculate_overall_risk: the fixed-weight
(0.25 each) average, capped at 100. -/
def calculateOverallRisk (technical governance market liquidity : ℚ) : ℚ :=
  min (technical * (25/100) + governance * (25/100) +
       market * (25/100) + liquidity * (25/100)) 100

structure RiskFactor where
  level : String
  description : String
  score : ℚ
deriving Repr, DecidableEq

/-- The risk_factors dictionary: one optional entry per category. -/
structure RiskFactors where
  technical : Option RiskFactor
  governance : Option RiskFactor
  market : Option RiskFactor
  liquidity : Option RiskFactor
deriving Repr, DecidableEq

/-- Mirrors RiskAssessmentEngine._identify_risk_factors. -/
def identifyRiskFactors (technical governance market liquidity : ℚ) : RiskFactors :=
  { technical :=
      if technical > 70 then
        some ⟨"high", "High smart contract complexity or recent security events", technical⟩
      else if technical > 40 then
        some ⟨"medium", "Moderate technical complexity", technical⟩
      else none
    governance :=
      if governance > 70 then
        some ⟨"high", "Low governance participation or proposal success rate", governance⟩
      else if governance > 40 then
        some ⟨"medium", "Moderate governance risk", governance⟩
      else none
    market :=
      if market > 70 then
        some ⟨"high", "High price volatility or negative price trend", market⟩
      else if market > 40 then
        some ⟨"medium", "Moderate market volatility", market⟩
      else none
    liquidity :=
      if liquidity > 70 then
        some ⟨"high", "Low trading volume or high volume volatility", liquidity⟩
      else if liquidity > 40 then
        some ⟨"medium", "Moderate liquidity risk", liquidity⟩
      else none }

/-- Mirrors RiskAssessmentEngine._generate_recommendations. -/
def generateRecommendations (rf : RiskFactors) : List String :=
  let recs :=
    (match rf.technical with
     | some f =>
       if f.level = "high" then
         ["Conduct thorough smart contract audit before upgrade",
          "Implement emergency pause functionality"]
       else ["Monitor smart contract events closely"]
     | none => []) ++
    (match rf.governance with
     | some f =>
       if f.level = "high" then
         ["Increase governance participation incentives",
          "Extend proposal voting period"]
       else ["Monitor governance proposal outcomes"]
     | none => []) ++
    (match rf.market with
     | some f =>
       if f.level = "high" then
         ["Consider hedging strategies for price volatility",
          "Monitor market sentiment closely"]
       else ["Track price movements during upgrade"]
     | none => []) ++
    (match rf.liquidity with
     | some f =>
       if f.level = "high" then
         ["Ensure sufficient liquidity before upgrade",
          "Monitor trading volume patterns"]
       else ["Watch for unusual trading activity"]
     | none => [])
  if recs.isEmpty then ["Continue monitoring all risk factors"] else recs

/-- The ProtocolUpgrade row fields that assess_upgrade_risk reads. -/
structure UpgradeRec where
  id : ℕ
  protocol_id : ℕ
  status : String
deriving Repr, DecidableEq

/-- The query results the four sub-score calculations consume, gathered as
one explicit input (the source obtains them from the database session). -/
structure AssessInputs where
  eventCounts : Option (ℕ × ℕ)
  proposals : Option (List String)
  marketPrices : Option (List ℚ)
  annVol : ℚ
  liqVolumes : Option (List (Option ℚ))
  volStd : ℚ
deriving Repr, DecidableEq

/-- The RiskAssessment row persisted by assess_upgrade_risk. -/
structure RiskAssessmentRec where
  protocol_id : ℕ
  upgrade_id : ℕ
  overall_risk_score : ℚ
  technical_risk : ℚ
  governance_risk : ℚ
  market_risk : ℚ
  liquidity_risk : ℚ
  risk_factors : RiskFactors
  recommendations : List String
deriving Repr, DecidableEq

/-- The error taxonomy of the embedded core: the ValueError raised for a
missing upgrade, the ValueError raised for insufficient raw data, the
AttributeError raised when a fallback model object lacks an attribute the
caller accesses, an exception raised by an external fitting routine, and a
failure of the database commit. -/
inductive CoreErr where
  | notFound
  | insufficientData (msg : String)
  | attributeError (attr : String)
  | fitRaised
  | commitFailed
deriving Repr, DecidableEq

/-- Mirrors RiskAssessmentEngine.assess_upgrade_risk.  upgrade is the result
of the lookup query (none raises the not-found ValueError); commitOk models
whether db.commit succeeds; the store is the list of committed
RiskAssessment rows.  Every error path rolls back, leaving the store
unchanged; a successful call appends exactly the new record. -/
def assessUpgradeRisk (upgrade : Option UpgradeRec) (inp : AssessInputs)
    (commitOk : Bool) (store : List RiskAssessmentRec) :
    Except CoreErr RiskAssessmentRec × List RiskAssessmentRec :=
  match upgrade with
  | none => (.error .notFound, store)
  | some u =>
    let t := technicalRisk inp.eventCounts
    let g := governanceRisk inp.proposals u.status
    let m := marketRisk inp.marketPrices inp.annVol
    let l := liquidityRisk inp.liqVolumes inp.volStd
    let overall := calculateOverallRisk t g m l
    let rf := identifyRiskFactors t g m l
    let assessment : RiskAssessmentRec :=
      { protocol_id := u.protocol_id
        upgrade_id := u.id
        overall_risk_score := overall
        technical_risk := t
        governance_risk := g
        market_risk := m
        liquidity_risk := l
        risk_factors := rf
        recommendations := generateRecommendations rf }
    if commitOk then (.ok assessment, store ++ [assessment])
    else (.error .commitFailed, store)

/-! ## Volatility prediction (app/core/volatility.py) -/

/-- The MarketData row fields the predictors read.  Timestamps are modelled
as day indices (the queries return rows in ascending timestamp order and the
liquidity series preparation resamples to daily frequency). -/
structure MarketDataRec where
  timestamp : ℕ
  price : ℚ
  market_cap : Option ℚ
  volume_24h : Option ℚ
deriving Repr, DecidableEq

/-- Oracle for a successfully fitted arch GARCH(1,1) model: its three
parameters and, for each forecast step i, the value of
sqrt(forecast.variance.values[-1, i]). -/
structure GarchFitted where
  omega : ℚ
  alpha : ℚ
  beta : ℚ
  volPath : ℕ → ℚ

/-- Oracle for a successfully fitted arch EGARCH(1,1,1) model. -/
structure EgarchFitted where
  omega : ℚ
  alpha : ℚ
  gamma : ℚ
  beta : ℚ
  volPath : ℕ → ℚ

/-- The model value returned by VolatilityPredictor._fit_garch_model: the
fitted GARCH model on success, or the inline SimpleVolatilityModel fallback
(which carries only np.std of the returns) when the fit raises. -/
inductive VolModel where
  | garch (g : GarchFitted)
  | simpleVol (sampleStd : ℚ)

/-- Mirrors VolatilityPredictor._fit_garch_model.  fitResult is none when
arch_model(...).fit raises; sampleStd is the value of np.std(returns) that
the SimpleVolatilityModel fallback stores. -/
def fitGarchModel (fitResult : Option GarchFitted) (sampleStd : ℚ) : VolModel :=
  match fitResult with
  | some g => .garch g
  | none => .simpleVol sampleStd

/-- Final step of np.sqrt(forecast.variance.values[-1, :]) for a horizon:
the GARCH oracle path at step horizon - 1, or sqrt(std ** 2) = the absolute
value of the sample standard deviation for the flat fallback forecast. -/
def VolModel.volForecastLast : VolModel → ℕ → ℚ
  | .garch g, horizon => g.volPath (horizon - 1)
  | .simpleVol s, _ => |s|

/-- The attribute access model.params.iloc on the fitted object: the
SimpleVolatilityModel fallback has no params attribute, so the access
raises AttributeError (modelled as none). -/
def VolModel.paramsOf : VolModel → Option (ℚ × ℚ × ℚ)
  | .garch g => some (g.omega, g.alpha, g.beta)
  | .simpleVol _ => none

/-- Mirrors VolatilityPredictor._calculate_confidence_intervals.  stdErr is
the value of np.std(returns) / np.sqrt(len(returns)), supplied as an oracle
input. -/
def calcConfidenceIntervals (volForecastLast stdErr : ℚ) : ℚ × ℚ :=
  (max 0 (volForecastLast - (196/100) * stdErr),
   volForecastLast + (196/100) * stdErr)

/-- The VolatilityPrediction row persisted by the volatility predictors.
gammaParam is none for the GARCH path (its parameter dict has no gamma). -/
structure VolPredRec where
  upgrade_id : ℕ
  token_address : String
  prediction_horizon : ℕ
  predicted_volatility : ℚ
  ci_lower : ℚ
  ci_upper : ℚ
  model_used : String
  omega : ℚ
  alpha : ℚ
  beta : ℚ
  gammaParam : Option ℚ
deriving Repr, DecidableEq

/-- The fields of the result dictionary of predict_volatility that the
claims are about. -/
structure VolResult where
  predicted_volatility : ℚ
  ci_lower : ℚ
  ci_upper : ℚ
deriving Repr, DecidableEq

/-- Mirrors VolatilityPredictor.predict_volatility.  priceData is the 90-day
market-data query result (ascending); fitResult, sampleStd and stdErr are
the numeric oracles for the scaled return series; commitOk models
db.commit; the store is the committed VolatilityPrediction history.  Fewer
than 30 rows raise the insufficient-data ValueError before any fitting; on
the fallback path the access garch_model.params raises AttributeError while
building the row, so nothing is persisted; every error path rolls back. -/
def predictVolatility (fitResult : Option GarchFitted) (sampleStd stdErr : ℚ)
    (priceData : List MarketDataRec) (tokenAddress : String) (upgradeId : ℕ)
    (horizon : ℕ) (commitOk : Bool) (store : List VolPredRec) :
    Except CoreErr VolResult × List VolPredRec :=
  if priceData.length < 30 then
    (.error (.insufficientData "Insufficient price data for volatility prediction"), store)
  else
    let model := fitGarchModel fitResult sampleStd
    let pf := model.volForecastLast horizon
    let ci := calcConfidenceIntervals pf stdErr
    match model.paramsOf with
    | none => (.error (.attributeError "params"), store)
    | some (om, al, be) =>
      let row : VolPredRec :=
        { upgrade_id := upgradeId
          token_address := tokenAddress
          prediction_horizon := horizon
          predicted_volatility := pf
          ci_lower := ci.1
          ci_upper := ci.2
          model_used := "GARCH(1,1)"
          omega := om
          alpha := al
          beta := be
          gammaParam := none }
      if commitOk then (.ok ⟨pf, ci.1, ci.2⟩, store ++ [row])
      else (.error .commitFailed, store)

/-- Mirrors VolatilityPredictor.predict_egarch_volatility.  There is no
minimum-data check on this path; the EGARCH fit has no fallback, so a fit
exception (fitResult = none) propagates; the confidence interval persisted
is the multiplicative band 0.8 and 1.2 times the final forecast. -/
def predictEgarchVolatility (fitResult : Option EgarchFitted)
    (priceData : List MarketDataRec) (tokenAddress : String) (upgradeId : ℕ)
    (horizon : ℕ) (commitOk : Bool) (store : List VolPredRec) :
    Except CoreErr VolResult × List VolPredRec :=
  match fitResult with
  | none => (.error .fitRaised, store)
  | some g =>
    let pf := g.volPath (horizon - 1)
    let lower := pf * (8/10)
    let upper := pf * (12/10)
    let row : VolPredRec :=
      { upgrade_id := upgradeId
        token_address := tokenAddress
        prediction_horizon := horizon
        predicted_volatility := pf
        ci_lower := lower
        ci_upper := upper
        model_used := "EGARCH(1,1,1)"
        omega := g.omega
        alpha := g.alpha
        beta := g.beta
        gammaParam := some g.gamma }
    if commitOk then (.ok ⟨pf, lower, upper⟩, store ++ [row])
    else (.error .commitFailed, store)

/-! ## Liquidity prediction (app/core/liquidity.py) -/

/-- Python falsy-or on an optional numeric field: record.field or fallback.
Both None and 0 are falsy, so a present zero value falls through exactly
like an absent one. -/
def pyOr (x : Option ℚ) (y : ℚ) : ℚ :=
  match x with
  | some v => if v = 0 then y else v
  | none => y

/-- The per-record TVL proxy of LiquidityPredictor._prepare_tvl_series:
record.market_cap or record.volume_24h or 1000000. -/
def tvlValue (r : MarketDataRec) : ℚ :=
  pyOr r.market_cap (pyOr r.volume_24h 1000000)

/-- The values carried by the rows of one day. -/
def dayValues (pts : List (ℕ × ℚ)) (d : ℕ) : List ℚ :=
  (pts.filter (fun p => p.1 = d)).map Prod.snd

/-- df.resample(D).mean().fillna(method=ffill) starting at day d for count
days: the mean of the values of each day, carrying the previous value
forward over empty days. -/
def resampleFrom (pts : List (ℕ × ℚ)) (d count : ℕ) (prev : ℚ) : List ℚ :=
  match count with
  | 0 => []
  | n + 1 =>
    let vs := dayValues pts d
    let v := if vs.isEmpty then prev else meanQ vs
    v :: resampleFrom pts (d + 1) n v

/-- Mirrors LiquidityPredictor._prepare_tvl_series: map each record to its
TVL proxy value and resample to one value per day over the span of the
data.  The first day of the span always has data, so the initial
forward-fill seed is never read. -/
def prepareTvlSeries (tvlData : List MarketDataRec) : List ℚ :=
  if tvlData.isEmpty then []
  else
    let pts := tvlData.map (fun r => (r.timestamp, tvlValue r))
    let days := pts.map Prod.fst
    let lo := days.foldr min (days.headD 0)
    let hi := days.foldr max 0
    resampleFrom pts lo (hi + 1 - lo) 0

/-- pandas series.diff().dropna(): consecutive differences. -/
def diffSeries (s : List ℚ) : List ℚ :=
  List.zipWith (fun a b => b - a) s s.tail

/-- Mirrors LiquidityPredictor._is_stationary.  adf is the oracle for the
adfuller call: some p is the p-value of a successful test, none models the
test raising (the except branch, which reports non-stationary). -/
def isStationary (adf : List ℚ → Option ℚ) (s : List ℚ) : Bool :=
  match adf s with
  | some p => decide (p < 1/20)
  | none => false

/-- Mirrors LiquidityPredictor._make_stationary: difference once, retest,
and difference a second time without any further test when still not
stationary. -/
def makeStationary (adf : List ℚ → Option ℚ) (s : List ℚ) : List ℚ :=
  let d := diffSeries s
  if isStationary adf d then d else diffSeries (diffSeries s)

/-- The stationarity step of predict_liquidity: leave a stationary series
unchanged, otherwise apply _make_stationary. -/
def stationarityStep (adf : List ℚ → Option ℚ) (s : List ℚ) : List ℚ :=
  if isStationary adf s then s else makeStationary adf s

/-- Oracle for a successfully fitted statsmodels ARIMA model: the order
string, the AIC, and for each step i the forecast value forecast.iloc[i]. -/
structure ArimaFitted where
  order : String
  aic : ℚ
  forecastPath : ℕ → ℚ

/-- np.polyfit(range(len(series)), series, 1)[0]: the least-squares slope
of the series against its index, which is exact rational arithmetic. -/
def polyfitSlope (ys : List ℚ) : ℚ :=
  let n : ℚ := (ys.length : ℚ)
  let xs : List ℚ := (List.range ys.length).map (fun i => (i : ℚ))
  let sx := xs.sum
  let sy := ys.sum
  let sxy := ((List.zip xs ys).map (fun p => p.1 * p.2)).sum
  let sxx := (xs.map (fun x => x ^ 2)).sum
  (n * sxy - sx * sy) / (n * sxx - sx ^ 2)

/-- The model value returned by LiquidityPredictor._fit_arima_model: the
fitted ARIMA model on success, or the inline SimpleModel linear-trend
fallback when the fit raises. -/
inductive LiqModel where
  | arima (a : ArimaFitted)
  | simpleTrend (lastValue : ℚ) (trend : ℚ)

/-- Mirrors LiquidityPredictor._fit_arima_model. -/
def fitArimaModel (fitResult : Option ArimaFitted) (series : List ℚ) : LiqModel :=
  match fitResult with
  | some a => .arima a
  | none => .simpleTrend (series.getLastD 0) (polyfitSlope series)

/-- forecast.iloc[-1] of LiqModel.forecast(steps): the ARIMA oracle path at
step steps - 1, or last_value + trend * steps for the SimpleModel fallback. -/
def LiqModel.forecastLast : LiqModel → ℕ → ℚ
  | .arima a, steps => a.forecastPath (steps - 1)
  | .simpleTrend lastV tr, steps => lastV + tr * (steps : ℚ)

/-- The attribute accesses arima_model.model.order and arima_model.aic in
predict_liquidity: the SimpleModel fallback has no model attribute, so the
access raises AttributeError (modelled as none). -/
def LiqModel.paramsOf : LiqModel → Option (String × ℚ)
  | .arima a => some (a.order, a.aic)
  | .simpleTrend _ _ => none

/-- Mirrors LiquidityPredictor._calculate_confidence_intervals.  origStd is
the value of series.std() on the series passed at the call site (note the
call site passes the possibly differenced series). -/
def liqConfidenceIntervals (forecastLast origStd : ℚ) : ℚ × ℚ :=
  (forecastLast - (196/100) * origStd, forecastLast + (196/100) * origStd)

/-- The LiquidityPrediction row persisted by predict_liquidity. -/
structure LiqPredRec where
  upgrade_id : ℕ
  protocol_address : String
  prediction_horizon : ℕ
  predicted_tvl_change : ℚ
  predicted_volume_change : ℚ
  ci_lower : ℚ
  ci_upper : ℚ
  model_used : String
  order : String
  aic : ℚ
deriving Repr, DecidableEq

/-- The fields of the result dictionary of predict_liquidity that the
claims are about. -/
structure LiqResult where
  predicted_tvl_change_percent : ℚ
  current_tvl : ℚ
  predicted_tvl : ℚ
  ci_lower : ℚ
  ci_upper : ℚ
deriving Repr, DecidableEq

/-- Mirrors LiquidityPredictor.predict_liquidity.  tvlData is the 90-day
market-data query result; adf, fitResult and origStd are the statistical
oracles; commitOk models db.commit; the store is the committed
LiquidityPrediction history.  Fewer than 30 rows raise the
insufficient-data ValueError; on the ARIMA fallback path the access
arima_model.model.order raises AttributeError while building the row;
every error path rolls back. -/
def predictLiquidity (fitResult : Option ArimaFitted) (adf : List ℚ → Option ℚ)
    (origStd : ℚ) (tvlData : List MarketDataRec) (protocolAddress : String)
    (upgradeId : ℕ) (horizon : ℕ) (commitOk : Bool) (store : List LiqPredRec) :
    Except CoreErr LiqResult × List LiqPredRec :=
  if tvlData.length < 30 then
    (.error (.insufficientData "Insufficient TVL data for prediction"), store)
  else
    let series := stationarityStep adf (prepareTvlSeries tvlData)
    let model := fitArimaModel fitResult series
    let pf := model.forecastLast horizon
    let ci := liqConfidenceIntervals pf origStd
    let currentTvl := series.getLastD 0
    let changePct := ((pf - currentTvl) / currentTvl) * 100
    match model.paramsOf with
    | none => (.error (.attributeError "model"), store)
    | some (ord, aicV) =>
      let row : LiqPredRec :=
        { upgrade_id := upgradeId
          protocol_address := protocolAddress
          prediction_horizon := horizon
          predicted_tvl_change := changePct
          predicted_volume_change := 0
          ci_lower := ci.1
          ci_upper := ci.2
          model_used := "ARIMA"
          order := ord
          aic := aicV }
      if commitOk then (.ok ⟨changePct, currentTvl, pf, ci.1, ci.2⟩, store ++ [row])
      else (.error .commitFailed, store)

/-! ## Model evaluation (evaluate_model_performance in both predictors) -/

/-- A stored prediction paired with the realized value over its horizon
window; none models _get_actual_volatility / _get_actual_tvl_change
returning None (fewer than 2 observations in the window, or an error). -/
structure StoredPrediction where
  predicted : ℚ
  horizon : ℕ
  actual : Option ℚ
deriving Repr, DecidableEq

/-- The actual/predicted pairs the evaluators accumulate. -/
def validPairs (preds : List StoredPrediction) : List (ℚ × ℚ) :=
  preds.filterMap (fun p => p.actual.map (fun a => (a, p.predicted)))

/-- Mean squared error over (actual, predicted) pairs. -/
def mseQ (pairs : List (ℚ × ℚ)) : ℚ :=
  (pairs.map (fun p => (p.1 - p.2) ^ 2)).sum / (pairs.length : ℚ)

/-- Mean absolute error over (actual, predicted) pairs. -/
def maeQ (pairs : List (ℚ × ℚ)) : ℚ :=
  (pairs.map (fun p => |p.1 - p.2|)).sum / (pairs.length : ℚ)

/-- The evaluation outcome: the explicit insufficient-data dictionary, or
the metrics dictionary.  The source also reports the root mean squared
error, which is the square root of mse and is determined by it. -/
inductive EvalOutcome where
  | insufficient (msg : String)
  | metrics (mse mae meanActual meanPredicted : ℚ)
deriving Repr, DecidableEq

/-- Mirrors VolatilityPredictor.evaluate_model_performance: fewer than 10
stored predictions, or fewer than 5 valid actual/predicted pairs, return
the explicit insufficient-data dictionary; otherwise the metrics. -/
def evaluateVolModelPerformance (preds : List StoredPrediction) : EvalOutcome :=
  if preds.length < 10 then .insufficient "Insufficient data for evaluation"
  else
    let pairs := validPairs preds
    if pairs.length < 5 then .insufficient "Insufficient actual data for evaluation"
    else .metrics (mseQ pairs) (maeQ pairs)
      (meanQ (pairs.map Prod.fst)) (meanQ (pairs.map Prod.snd))

/-- Mirrors LiquidityPredictor.evaluate_model_performance, which has the
same thresholds and metrics over TVL changes. -/
def evaluateLiqModelPerformance (preds : List StoredPrediction) : EvalOutcome :=
  if preds.length < 10 then .insufficient "Insufficient data for evaluation"
  else
    let pairs := validPairs preds
    if pairs.length < 5 then .insufficient "Insufficient actual data for evaluation"
    else .metrics (mseQ pairs) (maeQ pairs)
      (meanQ (pairs.map Prod.fst)) (meanQ (pairs.map Prod.snd))

/-! ## Helper lemmas -/

theorem meanQ_pos {l : List ℚ} (h : ∀ x ∈ l, 0 < x) (hne : l ≠ []) : 0 < meanQ l := by
  unfold meanQ
  apply div_pos (List.sum_pos l h hne)
  exact_mod_cast List.length_pos.mpr hne

theorem ite_zero_one_bounds (c : Prop) [Decidable c] :
    0 ≤ (if c then (1:ℚ) else 0) ∧ (if c then (1:ℚ) else 0) ≤ 1 := by
  split <;> norm_num

theorem technicalRisk_bounds (c : Option (ℕ × ℕ)) :
    0 ≤ technicalRisk c ∧ technicalRisk c ≤ 100 := by
  match c with
  | none => norm_num [technicalRisk]
  | some (a, b) =>
    simp only [technicalRisk]
    have h1 : (0:ℚ) ≤ min ((a : ℚ) / 100) 1 := le_min (by positivity) (by norm_num)
    have h2 : (0:ℚ) ≤ min ((b : ℚ) * (2/10)) 1 := le_min (by positivity) (by norm_num)
    exact ⟨le_min (by nlinarith) (by norm_num), min_le_right _ _⟩

theorem governanceRisk_bounds (ps : Option (List String)) (st : String) :
    0 ≤ governanceRisk ps st ∧ governanceRisk ps st ≤ 100 := by
  match ps with
  | none => norm_num [governanceRisk]
  | some l =>
    by_cases hl : l.isEmpty
    · norm_num [governanceRisk, hl]
    · have hne : l ≠ [] := by simpa [List.isEmpty_iff] using hl
      have hlen : (0:ℚ) < (l.length : ℚ) := by
        exact_mod_cast List.length_pos.mpr hne
      have hsr0 : (0:ℚ) ≤ ((l.filter (fun s => s = "passed")).length : ℚ) / (l.length : ℚ) := by
        positivity
      have hsr1 : ((l.filter (fun s => s = "passed")).length : ℚ) / (l.length : ℚ) ≤ 1 := by
        rw [div_le_one hlen]
        exact_mod_cast List.length_filter_le _ _
      have hm : (0:ℚ) ≤ min ((l.length : ℚ) / 3 / 5) 1 := le_min (by positivity) (by norm_num)
      have hm1 : min (((l.length : ℚ)) / 3 / 5) 1 ≤ 1 := min_le_right _ _
      simp only [governanceRisk, hl, if_false]
      refine ⟨le_min ?_ (by norm_num), min_le_right _ _⟩
      have hite : (0:ℚ) ≤ (if st = "pending" then (2/10 : ℚ) else 0) := by
        split <;> norm_num
      nlinarith

theorem marketRisk_bounds (ps : Option (List ℚ)) (annVol : ℚ) (h : 0 ≤ annVol) :
    0 ≤ marketRisk ps annVol ∧ marketRisk ps annVol ≤ 100 := by
  match ps with
  | none => norm_num [marketRisk]
  | some l =>
    by_cases hl : l.isEmpty
    · norm_num [marketRisk, hl]
    · simp only [marketRisk, hl, if_false]
      have hv0 : (0:ℚ) ≤ (if l.length > 1 then min (annVol * 100) 1 else (5/10)) := by
        split
        · exact le_min (by positivity) (by norm_num)
        · norm_num
      have hv1 : (if l.length > 1 then min (annVol * 100) 1 else (5/10)) ≤ 1 := by
        split
        · exact min_le_right _ _
        · norm_num
      have ht0 : (0:ℚ) ≤ (if l.length > 7 then
          (if meanQ (l.take 7) < meanQ (l.drop (l.length - 7)) then (1:ℚ) else 0)
          else (5/10)) := by
        split
        · split <;> norm_num
        · norm_num
      have ht1 : (if l.length > 7 then
          (if meanQ (l.take 7) < meanQ (l.drop (l.length - 7)) then (1:ℚ) else 0)
          else (5/10)) ≤ 1 := by
        split
        · split <;> norm_num
        · norm_num
      exact ⟨le_min (by nlinarith) (by norm_num), min_le_right _ _⟩

theorem liquidityRisk_bounds (vols : Option (List (Option ℚ))) (volStd : ℚ)
    (hstd : 0 ≤ volStd)
    (hpos : ∀ raw, vols = some raw → ∀ v ∈ truthyVolumes raw, 0 < v) :
    0 ≤ liquidityRisk vols volStd ∧ liquidityRisk vols volStd ≤ 100 := by
  match vols with
  | none => norm_num [liquidityRisk]
  | some raw =>
    by_cases hr : raw.isEmpty
    · norm_num [liquidityRisk, hr]
    · simp only [liquidityRisk, hr, if_false]
      have hv0 : (0:ℚ) ≤ (if (truthyVolumes raw).length > 1
          then min (volStd / meanQ (truthyVolumes raw)) 1 else (5/10)) := by
        split
        · rename_i hlen
          have hne : truthyVolumes raw ≠ [] := by
            intro hcon
            rw [hcon] at hlen
            simp at hlen
          have hmean : 0 < meanQ (truthyVolumes raw) :=
            meanQ_pos (hpos raw rfl) hne
          exact le_min (div_nonneg hstd hmean.le) (by norm_num)
        · norm_num
      have hv1 : (if (truthyVolumes raw).length > 1
          then min (volStd / meanQ (truthyVolumes raw)) 1 else (5/10)) ≤ 1 := by
        split
        · exact min_le_right _ _
        · norm_num
      have hs0 : (0:ℚ) ≤ (if (if (truthyVolumes raw).isEmpty then (0:ℚ)
          else meanQ (truthyVolumes raw)) < 1000000 then (1:ℚ) else 0) :=
        (ite_zero_one_bounds _).1
      have hs1 : (if (if (truthyVolumes raw).isEmpty then (0:ℚ)
          else meanQ (truthyVolumes raw)) < 1000000 then (1:ℚ) else 0) ≤ 1 :=
        (ite_zero_one_bounds _).2
      exact ⟨le_min (by nlinarith) (by norm_num), min_le_right _ _⟩

/-! ## C1 -/

/-- C1: every risk assessment record created by a successful call to
assess_upgrade_risk has its four sub-scores in the interval [0, 100] and
persists an overall_risk_score equal to 0.25 times the sum of the four
sub-scores (the ML adjuster plays no part in record creation: the source
always persists the weighted average).  The hypotheses state facts the
numeric inputs always satisfy: standard deviations are nonnegative and the
volumes kept by the truthiness filter of the liquidity factor are positive. -/
theorem assess_creates_bounded_weighted_record
    (u : UpgradeRec) (inp : AssessInputs) (commitOk : Bool)
    (store store2 : List RiskAssessmentRec) (res : RiskAssessmentRec)
    (hAnn : 0 ≤ inp.annVol) (hStd : 0 ≤ inp.volStd)
    (hVol : ∀ raw, inp.liqVolumes = some raw → ∀ v ∈ truthyVolumes raw, 0 < v)
    (h : assessUpgradeRisk (some u) inp commitOk store = (Except.ok res, store2)) :
    (0 ≤ res.technical_risk ∧ res.technical_risk ≤ 100) ∧
    (0 ≤ res.governance_risk ∧ res.governance_risk ≤ 100) ∧
    (0 ≤ res.market_risk ∧ res.market_risk ≤ 100) ∧
    (0 ≤ res.liquidity_risk ∧ res.liquidity_risk ≤ 100) ∧
    res.overall_risk_score = (25/100) * (res.technical_risk + res.governance_risk +
      res.market_risk + res.liquidity_risk) := by
  cases commitOk with
  | false => simp [assessUpgradeRisk] at h
  | true =>
    simp only [assessUpgradeRisk, if_true, Prod.mk.injEq, Except.ok.injEq] at h
    obtain ⟨hres, -⟩ := h
    subst hres
    have ht := technicalRisk_bounds inp.eventCounts
    have hg := governanceRisk_bounds inp.proposals u.status
    have hm := marketRisk_bounds inp.marketPrices inp.annVol hAnn
    have hl := liquidityRisk_bounds inp.liqVolumes inp.volStd hStd hVol
    refine ⟨ht, hg, hm, hl, ?_⟩
    show calculateOverallRisk _ _ _ _ = _
    unfold calculateOverallRisk
    rw [min_eq_left (by nlinarith [ht.2, hg.2, hm.2, hl.2])]
    ring

/-! ## The end-to-end scenario of the spec (used by C1 and C2) -/

/-- The scenario of the spec: an upgrade whose protocol has 0 governance
proposals in 90 days, 0 blockchain events and 0 security events in window,
no market data and no volume data; every query succeeds. -/
def scenarioUpgrade : UpgradeRec := ⟨1, 1, "completed"⟩

/-- The query results of the scenario. -/
def scenarioInputs : AssessInputs := ⟨some (0, 0), some [], some [], 0, some [], 0⟩

/-- The record the source actually creates in the scenario. -/
def scenarioRecord : RiskAssessmentRec :=
  ⟨1, 1, 205/4, 0, 75, 60, 70,
   ⟨none,
    some ⟨"high", "Low governance participation or proposal success rate", 75⟩,
    some ⟨"medium", "Moderate market volatility", 60⟩,
    some ⟨"medium", "Moderate liquidity risk", 70⟩⟩,
   ["Increase governance participation incentives", "Extend proposal voting period",
    "Track price movements during upgrade", "Watch for unusual trading activity"]⟩

/-- Witness for C1: the theorem applied to the spec scenario. -/
theorem assess_creates_bounded_weighted_record_witness :
    (0:ℚ) ≤ scenarioInputs.annVol ∧ (0:ℚ) ≤ scenarioInputs.volStd ∧
    (∀ raw, scenarioInputs.liqVolumes = some raw → ∀ v ∈ truthyVolumes raw, 0 < v) ∧
    ((0 ≤ scenarioRecord.technical_risk ∧ scenarioRecord.technical_risk ≤ 100) ∧
     (0 ≤ scenarioRecord.governance_risk ∧ scenarioRecord.governance_risk ≤ 100) ∧
     (0 ≤ scenarioRecord.market_risk ∧ scenarioRecord.market_risk ≤ 100) ∧
     (0 ≤ scenarioRecord.liquidity_risk ∧ scenarioRecord.liquidity_risk ≤ 100) ∧
     scenarioRecord.overall_risk_score = (25/100) * (scenarioRecord.technical_risk +
       scenarioRecord.governance_risk + scenarioRecord.market_risk +
       scenarioRecord.liquidity_risk)) :=
  ⟨by norm_num [scenarioInputs], by norm_num [scenarioInputs],
   by
     intro raw hr v hv
     simp only [scenarioInputs] at hr
     cases hr
     simp [truthyVolumes] at hv,
   assess_creates_bounded_weighted_record scenarioUpgrade scenarioInputs true []
     [scenarioRecord] scenarioRecord (by norm_num [scenarioInputs])
     (by norm_num [scenarioInputs])
     (by
       intro raw hr v hv
       simp only [scenarioInputs] at hr
       cases hr
       simp [truthyVolumes] at hv)
     (by
       norm_num +decide [assessUpgradeRisk, technicalRisk, governanceRisk, marketRisk,
         liquidityRisk, calculateOverallRisk, identifyRiskFactors,
         generateRecommendations, scenarioUpgrade, scenarioInputs, scenarioRecord,
         min_def])⟩

/-! ## C2 -/

/-- C2 counterexample: in the scenario of the claim (0 governance
proposals, 0 blockchain events, no market data, no volume data) the
persisted technical risk is 0, not 50, and the persisted overall score is
205/4 = 51.25, not 255/4 = 63.75: with zero events the technical
calculation succeeds and returns 0, it does not take the exception default. -/
theorem scenario_technical_zero_not_fifty :
    (assessUpgradeRisk (some scenarioUpgrade) scenarioInputs true []).2.map
        RiskAssessmentRec.technical_risk = [0] ∧
    (assessUpgradeRisk (some scenarioUpgrade) scenarioInputs true []).2.map
        RiskAssessmentRec.overall_risk_score = [205/4] ∧
    (0 : ℚ) ≠ 50 ∧ (205 : ℚ)/4 ≠ 255/4 := by
  norm_num +decide [assessUpgradeRisk, technicalRisk, governanceRisk, marketRisk,
    liquidityRisk, calculateOverallRisk, identifyRiskFactors, generateRecommendations,
    scenarioUpgrade, scenarioInputs, min_def]

/-- C2 amended: in the scenario the sub-scores are (technical 0, governance
75, market 60, liquidity 70), the overall score is 51.25, the governance
factor is a high tier entry whose recommendations are the two specified
mitigations, market and liquidity get medium tier entries, and no technical
factor entry is produced (0 is not above 40). -/
theorem scenario_assessment_record :
    assessUpgradeRisk (some scenarioUpgrade) scenarioInputs true [] =
      (Except.ok scenarioRecord, [scenarioRecord]) ∧
    scenarioRecord.technical_risk = 0 ∧
    scenarioRecord.governance_risk = 75 ∧
    scenarioRecord.market_risk = 60 ∧
    scenarioRecord.liquidity_risk = 70 ∧
    scenarioRecord.overall_risk_score = 205/4 ∧
    scenarioRecord.risk_factors.technical = none ∧
    scenarioRecord.risk_factors.governance =
      some ⟨"high", "Low governance participation or proposal success rate", 75⟩ ∧
    scenarioRecord.risk_factors.market.map RiskFactor.level = some "medium" ∧
    scenarioRecord.risk_factors.liquidity.map RiskFactor.level = some "medium" ∧
    scenarioRecord.recommendations =
      ["Increase governance participation incentives", "Extend proposal voting period",
       "Track price movements during upgrade", "Watch for unusual trading activity"] := by
  norm_num +decide [assessUpgradeRisk, technicalRisk, governanceRisk, marketRisk,
    liquidityRisk, calculateOverallRisk, identifyRiskFactors, generateRecommendations,
    scenarioUpgrade, scenarioInputs, scenarioRecord, min_def]

/-! ## Concrete prediction inputs -/

/-- 31 days of constant market data rows: every log return is 0, so the
sample standard deviation of the returns, and hence the standard error, is
exactly 0. -/
def flatData31 : List MarketDataRec :=
  (List.range 31).map (fun i => ⟨i, 1, some 1000, some 1000⟩)

/-- 5 days of constant market data rows (fewer than the 30 the volatility
and liquidity predictors require). -/
def flatData5 : List MarketDataRec :=
  (List.range 5).map (fun i => ⟨i, 1, some 1000, some 1000⟩)

/-- Oracle for a successful GARCH(1,1) fit with a flat forecast path. -/
def garchOracle : GarchFitted := ⟨1, 2, 3, fun _ => 10⟩

/-- Oracle for a successful EGARCH(1,1,1) fit with a flat forecast path. -/
def egarchOracle : EgarchFitted := ⟨1, 2, 3, 4, fun _ => 10⟩

/-! ## C3 -/

/-- C3 (code defect): when the primary fitter raises, the predictors do not
return a fallback result.  predict_volatility builds its prediction row by
reading garch_model.params, which the SimpleVolatilityModel fallback does
not define, so an AttributeError propagates to the caller and nothing is
persisted; predict_liquidity likewise reads arima_model.model.order and
arima_model.aic, which the SimpleModel fallback does not define.  Evaluated
at 31 rows of constant data with the primary fit raising (fit oracle none)
and a stationary series (adfuller p-value 0.01). -/
theorem fallback_path_raises_attribute_error :
    predictVolatility none 0 0 flatData31 "0xTOKEN" 1 30 true [] =
      (Except.error (CoreErr.attributeError "params"), []) ∧
    predictLiquidity none (fun _ => some (1/100)) 0 flatData31 "0xPROTO" 1 7 true [] =
      (Except.error (CoreErr.attributeError "model"), []) := by
  constructor
  · norm_num [predictVolatility, fitGarchModel, VolModel.paramsOf,
      VolModel.volForecastLast, calcConfidenceIntervals, flatData31]
  · norm_num [predictLiquidity, fitArimaModel, LiqModel.paramsOf,
      LiqModel.forecastLast, liqConfidenceIntervals, flatData31]

/-! ## C4 -/

/-- C4 counterexample: predict_egarch_volatility performs no minimum-data
check: with only 5 rows (fewer than 30) and a successful fit it completes
and persists a prediction row instead of failing with the
insufficient-data error, so not every volatility prediction request with
fewer than 30 points fails. -/
theorem egarch_accepts_short_input :
    flatData5.length < 30 ∧
    (predictEgarchVolatility (some egarchOracle) flatData5 "0xTOKEN" 1 30 true []).1 =
      Except.ok ⟨10, 8, 12⟩ ∧
    (predictEgarchVolatility (some egarchOracle) flatData5 "0xTOKEN" 1 30 true []).2.length = 1 := by
  refine ⟨by norm_num [flatData5], ?_, ?_⟩ <;>
    norm_num [predictEgarchVolatility, egarchOracle, flatData5]

/-- C4 amended: predict_volatility and predict_liquidity raise the
insufficient-data error when fewer than 30 rows are supplied: no model is
fitted and nothing is persisted (the EGARCH path performs no such check). -/
theorem short_input_insufficient_data
    (fitG : Option GarchFitted) (sampleStd stdErr : ℚ)
    (fitA : Option ArimaFitted) (adf : List ℚ → Option ℚ) (origStd : ℚ)
    (data : List MarketDataRec) (ta pa : String) (uid hz : ℕ) (ck : Bool)
    (st1 : List VolPredRec) (st2 : List LiqPredRec)
    (h : data.length < 30) :
    predictVolatility fitG sampleStd stdErr data ta uid hz ck st1 =
      (Except.error (CoreErr.insufficientData
        "Insufficient price data for volatility prediction"), st1) ∧
    predictLiquidity fitA adf origStd data pa uid hz ck st2 =
      (Except.error (CoreErr.insufficientData
        "Insufficient TVL data for prediction"), st2) := by
  unfold predictVolatility predictLiquidity
  rw [if_pos h, if_pos h]
  exact ⟨rfl, rfl⟩

/-- Witness for the C4 amended theorem at an empty observation list. -/
theorem short_input_insufficient_data_witness :
    ([] : List MarketDataRec).length < 30 ∧
    (predictVolatility none 0 0 [] "0xTOKEN" 1 30 true [] =
      (Except.error (CoreErr.insufficientData
        "Insufficient price data for volatility prediction"), []) ∧
     predictLiquidity none (fun _ => none) 0 [] "0xPROTO" 1 30 true [] =
      (Except.error (CoreErr.insufficientData
        "Insufficient TVL data for prediction"), [])) :=
  ⟨by norm_num,
   short_input_insufficient_data none 0 0 none (fun _ => none) 0 [] "0xTOKEN" "0xPROTO"
     1 30 true [] [] (by norm_num)⟩

/-! ## C5 -/

/-- C5 counterexample: an EGARCH prediction on 31 rows of constant prices
(sample standard deviation of the returns, and hence the standard error, is
exactly 0) persists the multiplicative interval (8, 12) around the final
forecast 10, while the claimed formula forecast plus or minus 1.96 times
std/sqrt(n), clipped at 0, evaluates to (10, 10): the claimed interval
formula does not hold for every volatility prediction. -/
theorem egarch_ci_differs_from_formula :
    (predictEgarchVolatility (some egarchOracle) flatData31 "0xTOKEN" 1 30 true []).2.map
        (fun r => (r.ci_lower, r.ci_upper)) = [((8:ℚ), (12:ℚ))] ∧
    calcConfidenceIntervals 10 0 = (10, 10) ∧
    ((8:ℚ), (12:ℚ)) ≠ ((10:ℚ), (10:ℚ)) := by
  refine ⟨?_, ?_, ?_⟩
  · norm_num [predictEgarchVolatility, egarchOracle, flatData31]
  · norm_num [calcConfidenceIntervals]
  · norm_num

/-- C5 amended: a prediction row persisted by predict_volatility (always
the GARCH path: the fallback path never persists) carries the interval
max(0, forecast - 1.96 stderr) and forecast + 1.96 stderr around its final
forecast, where stderr is the value of std(returns)/sqrt(n); a row
persisted by predict_egarch_volatility instead carries the multiplicative
interval 0.8 and 1.2 times its final forecast. -/
theorem volatility_ci_formulas
    (fitG : Option GarchFitted) (sampleStd stdErr : ℚ) (data : List MarketDataRec)
    (ta : String) (uid hz : ℕ) (st : List VolPredRec) (p : VolPredRec)
    (fitE : Option EgarchFitted) (dataE : List MarketDataRec) (tb : String)
    (uidE hzE : ℕ) (stE : List VolPredRec) (q : VolPredRec)
    (h1 : (predictVolatility fitG sampleStd stdErr data ta uid hz true st).2 = st ++ [p])
    (h2 : (predictEgarchVolatility fitE dataE tb uidE hzE true stE).2 = stE ++ [q]) :
    (p.ci_lower = max 0 (p.predicted_volatility - (196/100) * stdErr) ∧
     p.ci_upper = p.predicted_volatility + (196/100) * stdErr) ∧
    (q.ci_lower = q.predicted_volatility * (8/10) ∧
     q.ci_upper = q.predicted_volatility * (12/10)) := by
  constructor
  · by_cases hlen : data.length < 30
    · exfalso
      rw [predictVolatility, if_pos hlen] at h1
      simpa using congrArg List.length h1
    · cases fitG with
      | none =>
        rw [predictVolatility, if_neg hlen] at h1
        simp only [fitGarchModel, VolModel.paramsOf] at h1
        exfalso
        simpa using congrArg List.length h1
      | some g =>
        rw [predictVolatility, if_neg hlen] at h1
        simp only [fitGarchModel, VolModel.paramsOf, if_true] at h1
        have hp := List.append_cancel_left h1
        have hp2 : _ = p := List.head_eq_of_cons_eq hp
        rw [← hp2]
        constructor <;> rfl
  · cases fitE with
    | none =>
      rw [predictEgarchVolatility] at h2
      exfalso
      simpa using congrArg List.length h2
    | some g =>
      rw [predictEgarchVolatility] at h2
      simp only [if_true] at h2
      have hq := List.append_cancel_left h2
      have hq2 : _ = q := List.head_eq_of_cons_eq hq
      rw [← hq2]
      constructor <;> rfl

/-- Witness for the C5 amended theorem: concrete GARCH and EGARCH runs on
31 rows of constant prices with standard error 1. -/
theorem volatility_ci_formulas_witness :
    (predictVolatility (some garchOracle) 0 1 flatData31 "0xTOKEN" 1 30 true []).2 =
      [] ++ [(⟨1, "0xTOKEN", 30, 10, 201/25, 299/25, "GARCH(1,1)", 1, 2, 3, none⟩ : VolPredRec)] ∧
    (predictEgarchVolatility (some egarchOracle) flatData31 "0xTOKEN" 1 30 true []).2 =
      [] ++ [(⟨1, "0xTOKEN", 30, 10, 8, 12, "EGARCH(1,1,1)", 1, 2, 4, some 3⟩ : VolPredRec)] ∧
    (((⟨1, "0xTOKEN", 30, 10, 201/25, 299/25, "GARCH(1,1)", 1, 2, 3, none⟩ : VolPredRec).ci_lower =
        max 0 ((10:ℚ) - (196/100) * 1) ∧
      (⟨1, "0xTOKEN", 30, 10, 201/25, 299/25, "GARCH(1,1)", 1, 2, 3, none⟩ : VolPredRec).ci_upper =
        (10:ℚ) + (196/100) * 1) ∧
     ((⟨1, "0xTOKEN", 30, 10, 8, 12, "EGARCH(1,1,1)", 1, 2, 4, some 3⟩ : VolPredRec).ci_lower =
        (10:ℚ) * (8/10) ∧
      (⟨1, "0xTOKEN", 30, 10, 8, 12, "EGARCH(1,1,1)", 1, 2, 4, some 3⟩ : VolPredRec).ci_upper =
        (10:ℚ) * (12/10))) := by
  have hg : (predictVolatility (some garchOracle) 0 1 flatData31 "0xTOKEN" 1 30 true []).2 =
      [] ++ [(⟨1, "0xTOKEN", 30, 10, 201/25, 299/25, "GARCH(1,1)", 1, 2, 3, none⟩ : VolPredRec)] := by
    norm_num [predictVolatility, fitGarchModel, VolModel.paramsOf, VolModel.volForecastLast,
      calcConfidenceIntervals, garchOracle, flatData31, max_def]
  have he : (predictEgarchVolatility (some egarchOracle) flatData31 "0xTOKEN" 1 30 true []).2 =
      [] ++ [(⟨1, "0xTOKEN", 30, 10, 8, 12, "EGARCH(1,1,1)", 1, 2, 4, some 3⟩ : VolPredRec)] := by
    norm_num [predictEgarchVolatility, egarchOracle, flatData31]
  exact ⟨hg, he, volatility_ci_formulas (some garchOracle) 0 1 flatData31 "0xTOKEN" 1 30 []
    _ (some egarchOracle) flatData31 "0xTOKEN" 1 30 [] _ hg he⟩

/-! ## C6 -/

/-- 32 days of market data whose market cap alternates between 1000 and
1010: the population standard deviation of the daily series is exactly 5
(16 values at distance 5 below the mean 1005 and 16 above). -/
def altData32 : List MarketDataRec :=
  (List.range 32).map (fun i => ⟨i, 1, some (if i % 2 = 0 then 1000 else 1010), some 1000⟩)

/-- The ARIMA fit oracle used for the C6 runs. -/
def arimaOracle : ArimaFitted := ⟨"(1, 1, 1)", 0, fun _ => 1050⟩

/-- C6 counterexample: a liquidity prediction whose history has nonzero
standard deviation (32 daily values alternating 1000 and 1010, population
standard deviation exactly 5, adfuller p-value 0.01 so no differencing)
persists the percentage change 400/101 (about 3.96) as its central value
but level-based interval bounds (5201/5, 5299/5) = (1040.2, 1059.8) around
the forecast level 1050, so ci_lower is not at most the persisted central
value: the bracketing claim fails for persisted liquidity records outside
the zero-variance case. -/
theorem liquidity_record_ci_does_not_bracket_point :
    (predictLiquidity (some arimaOracle) (fun _ => some (1/100)) 5
        altData32 "0xPROTO" 1 7 true []).2.map
        (fun r => (r.predicted_tvl_change, r.ci_lower, r.ci_upper)) =
      [((400:ℚ)/101, (5201:ℚ)/5, (5299:ℚ)/5)] ∧
    ¬((5201:ℚ)/5 ≤ 400/101) := by
  constructor
  · norm_num [predictLiquidity, fitArimaModel, LiqModel.paramsOf, LiqModel.forecastLast,
      liqConfidenceIntervals, stationarityStep, isStationary, prepareTvlSeries,
      resampleFrom, dayValues, meanQ, tvlValue, pyOr, arimaOracle, altData32,
      List.range_succ]
  · norm_num

/-- C6 amended: every row persisted by predict_volatility or
predict_egarch_volatility satisfies ci_lower at most the persisted point
forecast at most ci_upper and 0 at most ci_lower (given the facts the
numeric inputs always satisfy: the standard error is nonnegative and the
forecast path, a square root, is nonnegative); for predict_liquidity the
interval brackets the final forecast level returned in the result
dictionary whenever the historical standard deviation is nonnegative, but
the persisted central field is a percentage change, which the stored
level-based bounds need not bracket (see the counterexample). -/
theorem prediction_ci_bracket_bounds
    (fitG : Option GarchFitted) (sampleStd stdErr : ℚ) (data : List MarketDataRec)
    (ta : String) (uid hz : ℕ) (st : List VolPredRec) (p : VolPredRec)
    (fitE : Option EgarchFitted) (dataE : List MarketDataRec) (tb : String)
    (uidE hzE : ℕ) (stE : List VolPredRec) (q : VolPredRec)
    (fitA : Option ArimaFitted) (adf : List ℚ → Option ℚ) (origStd : ℚ)
    (dataL : List MarketDataRec) (pa : String) (uidL hzL : ℕ) (ckL : Bool)
    (stL : List LiqPredRec) (res : LiqResult)
    (hse : 0 ≤ stdErr)
    (hpath : ∀ g, fitG = some g → 0 ≤ g.volPath (hz - 1))
    (hpathE : ∀ g, fitE = some g → 0 ≤ g.volPath (hzE - 1))
    (hstd : 0 ≤ origStd)
    (h1 : (predictVolatility fitG sampleStd stdErr data ta uid hz true st).2 = st ++ [p])
    (h2 : (predictEgarchVolatility fitE dataE tb uidE hzE true stE).2 = stE ++ [q])
    (h3 : (predictLiquidity fitA adf origStd dataL pa uidL hzL ckL stL).1 = Except.ok res) :
    (p.ci_lower ≤ p.predicted_volatility ∧ p.predicted_volatility ≤ p.ci_upper ∧
     0 ≤ p.ci_lower) ∧
    (q.ci_lower ≤ q.predicted_volatility ∧ q.predicted_volatility ≤ q.ci_upper ∧
     0 ≤ q.ci_lower) ∧
    (res.ci_lower ≤ res.predicted_tvl ∧ res.predicted_tvl ≤ res.ci_upper) := by
  refine ⟨?_, ?_, ?_⟩
  · by_cases hlen : data.length < 30
    · exfalso
      rw [predictVolatility, if_pos hlen] at h1
      simpa using congrArg List.length h1
    · cases fitG with
      | none =>
        rw [predictVolatility, if_neg hlen] at h1
        simp only [fitGarchModel, VolModel.paramsOf] at h1
        exfalso
        simpa using congrArg List.length h1
      | some g =>
        have hg := hpath g rfl
        rw [predictVolatility, if_neg hlen] at h1
        simp only [fitGarchModel, VolModel.paramsOf, if_true] at h1
        have hp := List.append_cancel_left h1
        have hp2 : _ = p := List.head_eq_of_cons_eq hp
        rw [← hp2]
        simp only [VolModel.volForecastLast, calcConfidenceIntervals]
        refine ⟨max_le hg (by linarith), by linarith, le_max_left _ _⟩
  · cases fitE with
    | none =>
      rw [predictEgarchVolatility] at h2
      exfalso
      simpa using congrArg List.length h2
    | some g =>
      have hg := hpathE g rfl
      rw [predictEgarchVolatility] at h2
      simp only [if_true] at h2
      have hq := List.append_cancel_left h2
      have hq2 : _ = q := List.head_eq_of_cons_eq hq
      rw [← hq2]
      refine ⟨by simp; linarith, by simp; linarith, by simp; linarith⟩
  · by_cases hlen : dataL.length < 30
    · exfalso
      rw [predictLiquidity, if_pos hlen] at h3
      simp at h3
    · cases fitA with
      | none =>
        rw [predictLiquidity, if_neg hlen] at h3
        simp only [fitArimaModel, LiqModel.paramsOf] at h3
        exfalso
        simp at h3
      | some a =>
        rw [predictLiquidity, if_neg hlen] at h3
        simp only [fitArimaModel, LiqModel.paramsOf] at h3
        cases ckL with
        | false => simp at h3
        | true =>
          simp only [if_true, Except.ok.injEq] at h3
          rw [← h3]
          simp only [liqConfidenceIntervals]
          constructor <;> [linarith; linarith]

/-- Witness for the C6 amended theorem: the concrete GARCH, EGARCH and
ARIMA runs used elsewhere in this development. -/
theorem prediction_ci_bracket_bounds_witness :
    ((0:ℚ) ≤ 1 ∧ (0:ℚ) ≤ 5) ∧
    (((⟨1, "0xTOKEN", 30, 10, 201/25, 299/25, "GARCH(1,1)", 1, 2, 3, none⟩ : VolPredRec).ci_lower ≤
        (⟨1, "0xTOKEN", 30, 10, 201/25, 299/25, "GARCH(1,1)", 1, 2, 3, none⟩ : VolPredRec).predicted_volatility ∧
       (⟨1, "0xTOKEN", 30, 10, 201/25, 299/25, "GARCH(1,1)", 1, 2, 3, none⟩ : VolPredRec).predicted_volatility ≤
        (⟨1, "0xTOKEN", 30, 10, 201/25, 299/25, "GARCH(1,1)", 1, 2, 3, none⟩ : VolPredRec).ci_upper ∧
       0 ≤ (⟨1, "0xTOKEN", 30, 10, 201/25, 299/25, "GARCH(1,1)", 1, 2, 3, none⟩ : VolPredRec).ci_lower) ∧
      ((⟨1, "0xTOKEN", 30, 10, 8, 12, "EGARCH(1,1,1)", 1, 2, 4, some 3⟩ : VolPredRec).ci_lower ≤
        (⟨1, "0xTOKEN", 30, 10, 8, 12, "EGARCH(1,1,1)", 1, 2, 4, some 3⟩ : VolPredRec).predicted_volatility ∧
       (⟨1, "0xTOKEN", 30, 10, 8, 12, "EGARCH(1,1,1)", 1, 2, 4, some 3⟩ : VolPredRec).predicted_volatility ≤
        (⟨1, "0xTOKEN", 30, 10, 8, 12, "EGARCH(1,1,1)", 1, 2, 4, some 3⟩ : VolPredRec).ci_upper ∧
       0 ≤ (⟨1, "0xTOKEN", 30, 10, 8, 12, "EGARCH(1,1,1)", 1, 2, 4, some 3⟩ : VolPredRec).ci_lower) ∧
      ((⟨400/101, 1010, 1050, 5201/5, 5299/5⟩ : LiqResult).ci_lower ≤
        (⟨400/101, 1010, 1050, 5201/5, 5299/5⟩ : LiqResult).predicted_tvl ∧
       (⟨400/101, 1010, 1050, 5201/5, 5299/5⟩ : LiqResult).predicted_tvl ≤
        (⟨400/101, 1010, 1050, 5201/5, 5299/5⟩ : LiqResult).ci_upper)) := by
  have hg : (predictVolatility (some garchOracle) 0 1 flatData31 "0xTOKEN" 1 30 true []).2 =
      [] ++ [(⟨1, "0xTOKEN", 30, 10, 201/25, 299/25, "GARCH(1,1)", 1, 2, 3, none⟩ : VolPredRec)] := by
    norm_num [predictVolatility, fitGarchModel, VolModel.paramsOf, VolModel.volForecastLast,
      calcConfidenceIntervals, garchOracle, flatData31, max_def]
  have he : (predictEgarchVolatility (some egarchOracle) flatData31 "0xTOKEN" 1 30 true []).2 =
      [] ++ [(⟨1, "0xTOKEN", 30, 10, 8, 12, "EGARCH(1,1,1)", 1, 2, 4, some 3⟩ : VolPredRec)] := by
    norm_num [predictEgarchVolatility, egarchOracle, flatData31]
  have hl : (predictLiquidity (some arimaOracle) (fun _ => some (1/100)) 5
      altData32 "0xPROTO" 1 7 true []).1 =
      Except.ok (⟨400/101, 1010, 1050, 5201/5, 5299/5⟩ : LiqResult) := by
    norm_num [predictLiquidity, fitArimaModel, LiqModel.paramsOf, LiqModel.forecastLast,
      liqConfidenceIntervals, stationarityStep, isStationary, prepareTvlSeries,
      resampleFrom, dayValues, meanQ, tvlValue, pyOr, arimaOracle, altData32,
      List.range_succ]
  exact ⟨⟨by norm_num, by norm_num⟩,
    prediction_ci_bracket_bounds (some garchOracle) 0 1 flatData31 "0xTOKEN" 1 30 [] _
      (some egarchOracle) flatData31 "0xTOKEN" 1 30 [] _
      (some arimaOracle) (fun _ => some (1/100)) 5 altData32 "0xPROTO" 1 7 true [] _
      (by norm_num)
      (by intro g hgg; cases hgg; norm_num [garchOracle])
      (by intro g hgg; cases hgg; norm_num [egarchOracle])
      (by norm_num) hg he hl⟩

/-! ## C7 -/

/-- C7: the stationarity transform declares a series stationary exactly
when the adfuller p-value exists and is below 0.05 (a failing test reports
non-stationary); a non-stationary series is differenced once and retested,
and when still not stationary it is differenced a second time and accepted
without any further test; for every input series the transform applies at
most two differences. -/
theorem stationarity_two_step_policy (adf : List ℚ → Option ℚ) (s : List ℚ) :
    (isStationary adf s = true ↔ ∃ p, adf s = some p ∧ p < 1/20) ∧
    (makeStationary adf s =
      if isStationary adf (diffSeries s) then diffSeries s
      else diffSeries (diffSeries s)) ∧
    (stationarityStep adf s = s ∨ stationarityStep adf s = diffSeries s ∨
     stationarityStep adf s = diffSeries (diffSeries s)) := by
  refine ⟨?_, rfl, ?_⟩
  · unfold isStationary
    cases h : adf s with
    | none => simp
    | some p => simp
  · simp only [stationarityStep, makeStationary]
    by_cases h1 : isStationary adf s = true
    · simp [h1]
    · by_cases h2 : isStationary adf (diffSeries s) = true
      · simp [h1, h2]
      · simp [h1, h2]

/-! ## C8 -/

/-- C8: both model evaluators return the explicit insufficient-data
dictionary, not an exception and not metrics, when fewer than 10
predictions are stored (for example exactly 9) or when fewer than 5 valid
actual/predicted pairs exist; otherwise they return the mean squared error
and mean absolute error between actual and predicted values (the reported
root mean squared error is the square root of the returned MSE). -/
theorem evaluator_thresholds_and_metrics
    (preds9 predsA predsB : List StoredPrediction)
    (h9 : preds9.length = 9)
    (hA : 10 ≤ predsA.length) (hA5 : (validPairs predsA).length < 5)
    (hB : 10 ≤ predsB.length) (hB5 : 5 ≤ (validPairs predsB).length) :
    (evaluateVolModelPerformance preds9 =
       .insufficient "Insufficient data for evaluation" ∧
     evaluateLiqModelPerformance preds9 =
       .insufficient "Insufficient data for evaluation") ∧
    (evaluateVolModelPerformance predsA =
       .insufficient "Insufficient actual data for evaluation" ∧
     evaluateLiqModelPerformance predsA =
       .insufficient "Insufficient actual data for evaluation") ∧
    (evaluateVolModelPerformance predsB =
       .metrics (mseQ (validPairs predsB)) (maeQ (validPairs predsB))
         (meanQ ((validPairs predsB).map Prod.fst))
         (meanQ ((validPairs predsB).map Prod.snd)) ∧
     evaluateLiqModelPerformance predsB =
       .metrics (mseQ (validPairs predsB)) (maeQ (validPairs predsB))
         (meanQ ((validPairs predsB).map Prod.fst))
         (meanQ ((validPairs predsB).map Prod.snd))) := by
  have h9lt : preds9.length < 10 := by omega
  have hAn : ¬ predsA.length < 10 := by omega
  have hBn : ¬ predsB.length < 10 := by omega
  have hB5n : ¬ (validPairs predsB).length < 5 := by omega
  simp [evaluateVolModelPerformance, evaluateLiqModelPerformance,
    h9lt, hAn, hBn, hA5, hB5n]

/-- Witness for C8: 9 stored predictions, 10 predictions without realized
values, and 10 predictions with realized values. -/
theorem evaluator_thresholds_and_metrics_witness :
    (List.replicate 9 (⟨1, 30, some 1⟩ : StoredPrediction)).length = 9 ∧
    10 ≤ (List.replicate 10 (⟨1, 30, none⟩ : StoredPrediction)).length ∧
    (validPairs (List.replicate 10 (⟨1, 30, none⟩ : StoredPrediction))).length < 5 ∧
    10 ≤ (List.replicate 10 (⟨2, 30, some 3⟩ : StoredPrediction)).length ∧
    5 ≤ (validPairs (List.replicate 10 (⟨2, 30, some 3⟩ : StoredPrediction))).length ∧
    ((evaluateVolModelPerformance (List.replicate 9 (⟨1, 30, some 1⟩ : StoredPrediction)) =
        .insufficient "Insufficient data for evaluation" ∧
      evaluateLiqModelPerformance (List.replicate 9 (⟨1, 30, some 1⟩ : StoredPrediction)) =
        .insufficient "Insufficient data for evaluation") ∧
     (evaluateVolModelPerformance (List.replicate 10 (⟨1, 30, none⟩ : StoredPrediction)) =
        .insufficient "Insufficient actual data for evaluation" ∧
      evaluateLiqModelPerformance (List.replicate 10 (⟨1, 30, none⟩ : StoredPrediction)) =
        .insufficient "Insufficient actual data for evaluation") ∧
     (evaluateVolModelPerformance (List.replicate 10 (⟨2, 30, some 3⟩ : StoredPrediction)) =
        .metrics (mseQ (validPairs (List.replicate 10 (⟨2, 30, some 3⟩ : StoredPrediction))))
          (maeQ (validPairs (List.replicate 10 (⟨2, 30, some 3⟩ : StoredPrediction))))
          (meanQ ((validPairs (List.replicate 10 (⟨2, 30, some 3⟩ : StoredPrediction))).map Prod.fst))
          (meanQ ((validPairs (List.replicate 10 (⟨2, 30, some 3⟩ : StoredPrediction))).map Prod.snd)) ∧
      evaluateLiqModelPerformance (List.replicate 10 (⟨2, 30, some 3⟩ : StoredPrediction)) =
        .metrics (mseQ (validPairs (List.replicate 10 (⟨2, 30, some 3⟩ : StoredPrediction))))
          (maeQ (validPairs (List.replicate 10 (⟨2, 30, some 3⟩ : StoredPrediction))))
          (meanQ ((validPairs (List.replicate 10 (⟨2, 30, some 3⟩ : StoredPrediction))).map Prod.fst))
          (meanQ ((validPairs (List.replicate 10 (⟨2, 30, some 3⟩ : StoredPrediction))).map Prod.snd)))) :=
  ⟨by norm_num, by norm_num, by decide, by norm_num, by decide,
   evaluator_thresholds_and_metrics _ _ _ (by norm_num) (by norm_num)
     (by decide) (by norm_num) (by decide)⟩

/-! ## C9 -/

/-- C9: in the TVL proxy preparation a present zero market cap behaves
exactly like an absent one (the proxy falls back to the 24h volume), a
record whose market cap and volume are both 0 or absent uses the fixed
default 1000000, and the prepared series of such a single record carries
exactly this proxy value: zero values are indistinguishable from missing
values at this interface. -/
theorem tvl_zero_is_missing (ts : ℕ) (price : ℚ) (v : Option ℚ) :
    tvlValue ⟨ts, price, some 0, v⟩ = pyOr v 1000000 ∧
    tvlValue ⟨ts, price, none, v⟩ = pyOr v 1000000 ∧
    tvlValue ⟨ts, price, some 0, some 0⟩ = 1000000 ∧
    tvlValue ⟨ts, price, some 0, none⟩ = 1000000 ∧
    tvlValue ⟨ts, price, none, some 0⟩ = 1000000 ∧
    tvlValue ⟨ts, price, none, none⟩ = 1000000 ∧
    prepareTvlSeries [⟨ts, price, some 0, v⟩] = [pyOr v 1000000] := by
  have hday : ts + 1 - ts = 1 := by omega
  refine ⟨by simp [tvlValue, pyOr], by simp [tvlValue, pyOr], by simp [tvlValue, pyOr],
    by simp [tvlValue, pyOr], by simp [tvlValue, pyOr], by simp [tvlValue, pyOr], ?_⟩
  simp only [prepareTvlSeries, List.isEmpty_cons, List.map, List.headD,
    List.foldr, min_self, Nat.max_zero, hday, resampleFrom, dayValues,
    List.filter, decide_True, meanQ, tvlValue]
  norm_num [pyOr]

/-! ## C10 -/

/-- C10: whenever predict_volatility, predict_liquidity or
assess_upgrade_risk fails — for any reason, including a persistence failure
at commit time — the session is rolled back before the error propagates and
the committed store is unchanged: no partially written prediction or
assessment record is persisted. -/
theorem errors_leave_store_unchanged
    (fitG : Option GarchFitted) (sampleStd stdErr : ℚ) (data : List MarketDataRec)
    (ta : String) (uid hz : ℕ) (ck : Bool) (st1 : List VolPredRec) (e1 : CoreErr)
    (fitA : Option ArimaFitted) (adf : List ℚ → Option ℚ) (origStd : ℚ)
    (dataL : List MarketDataRec) (pa : String) (uidL hzL : ℕ) (ckL : Bool)
    (st2 : List LiqPredRec) (e2 : CoreErr)
    (upg : Option UpgradeRec) (inp : AssessInputs) (ckA : Bool)
    (st3 : List RiskAssessmentRec) (e3 : CoreErr)
    (h1 : (predictVolatility fitG sampleStd stdErr data ta uid hz ck st1).1 =
      Except.error e1)
    (h2 : (predictLiquidity fitA adf origStd dataL pa uidL hzL ckL st2).1 =
      Except.error e2)
    (h3 : (assessUpgradeRisk upg inp ckA st3).1 = Except.error e3) :
    (predictVolatility fitG sampleStd stdErr data ta uid hz ck st1).2 = st1 ∧
    (predictLiquidity fitA adf origStd dataL pa uidL hzL ckL st2).2 = st2 ∧
    (assessUpgradeRisk upg inp ckA st3).2 = st3 := by
  refine ⟨?_, ?_, ?_⟩
  · by_cases hlen : data.length < 30
    · rw [predictVolatility, if_pos hlen]
    · cases fitG with
      | none =>
        rw [predictVolatility, if_neg hlen]
        rfl
      | some g =>
        cases ck with
        | false =>
          rw [predictVolatility, if_neg hlen]
          rfl
        | true =>
          exfalso
          rw [predictVolatility, if_neg hlen] at h1
          simp [fitGarchModel, VolModel.paramsOf] at h1
  · by_cases hlen : dataL.length < 30
    · rw [predictLiquidity, if_pos hlen]
    · cases fitA with
      | none =>
        rw [predictLiquidity, if_neg hlen]
        rfl
      | some a =>
        cases ckL with
        | false =>
          rw [predictLiquidity, if_neg hlen]
          rfl
        | true =>
          exfalso
          rw [predictLiquidity, if_neg hlen] at h2
          simp [fitArimaModel, LiqModel.paramsOf] at h2
  · cases upg with
    | none => rfl
    | some u =>
      cases ckA with
      | false => rfl
      | true =>
        exfalso
        simp [assessUpgradeRisk] at h3

/-- Witness for C10: concrete runs in which the commit itself fails
(commitOk false), for each of the three operations; each leaves its store
unchanged. -/
theorem errors_leave_store_unchanged_witness :
    (predictVolatility (some garchOracle) 0 1 flatData31 "0xTOKEN" 1 30 false []).1 =
      Except.error CoreErr.commitFailed ∧
    (predictLiquidity (some arimaOracle) (fun _ => some (1/100)) 5 altData32
      "0xPROTO" 1 7 false []).1 = Except.error CoreErr.commitFailed ∧
    (assessUpgradeRisk (some scenarioUpgrade) scenarioInputs false []).1 =
      Except.error CoreErr.commitFailed ∧
    ((predictVolatility (some garchOracle) 0 1 flatData31 "0xTOKEN" 1 30 false []).2 = [] ∧
     (predictLiquidity (some arimaOracle) (fun _ => some (1/100)) 5 altData32
       "0xPROTO" 1 7 false []).2 = [] ∧
     (assessUpgradeRisk (some scenarioUpgrade) scenarioInputs false []).2 = []) := by
  have h1 : (predictVolatility (some garchOracle) 0 1 flatData31 "0xTOKEN" 1 30 false []).1 =
      Except.error CoreErr.commitFailed := by
    norm_num [predictVolatility, fitGarchModel, VolModel.paramsOf, garchOracle, flatData31]
  have h2 : (predictLiquidity (some arimaOracle) (fun _ => some (1/100)) 5 altData32
      "0xPROTO" 1 7 false []).1 = Except.error CoreErr.commitFailed := by
    norm_num [predictLiquidity, fitArimaModel, LiqModel.paramsOf, arimaOracle, altData32]
  have h3 : (assessUpgradeRisk (some scenarioUpgrade) scenarioInputs false []).1 =
      Except.error CoreErr.commitFailed := by
    norm_num [assessUpgradeRisk]
  exact ⟨h1, h2, h3,
    errors_leave_store_unchanged (some garchOracle) 0 1 flatData31 "0xTOKEN" 1 30 false []
      CoreErr.commitFailed (some arimaOracle) (fun _ => some (1/100)) 5 altData32
      "0xPROTO" 1 7 false [] CoreErr.commitFailed (some scenarioUpgrade) scenarioInputs
      false [] CoreErr.commitFailed h1 h2 h3⟩

end PUM
